import Mathlib

set_option maxRecDepth 8192

/-!
Verification of the utility-library specification against its source.

The embedding models:
* `queries_as_functions.py` — the four query builders.  A built query is a
  list of `QueryPart`s, mirroring the `psycopg2.sql.Composed` object that
  `SQL(template).format(**params)` produces: raw template chunks, escaped
  identifiers (`sql.Identifier`) and escaped literals (`sql.Literal`).
* `connection_utils.py` — `get_cluster_connection_details` (the cloud
  credential-resolution fallback chain), `AwsDatabaseConnectionManager`
  and `LastpassManager` connection construction.
* `database_utils.py` — `find_table_to_query` (the table-version resolver).
* `file_utils.py` — `ensure_file_slash`.
-/

/-- Python substring containment, `needle in hay`, on character lists. -/
def listIsInfixOf (needle : List Char) : List Char → Bool
  | [] => needle.isEmpty
  | c :: rest => needle.isPrefixOf (c :: rest) || listIsInfixOf needle rest

/-- Python `needle in hay` for strings. -/
def isSubstring (needle hay : String) : Bool :=
  listIsInfixOf needle.data hay.data

/-- A value bound into a query as an escaped literal (`psycopg2.sql.Literal`). -/
inductive SqlValue where
  | str : String → SqlValue
  | int : Int → SqlValue
deriving DecidableEq

/-- One component of a formatted query, mirroring what
`psycopg2.sql.SQL(...).format(...)` assembles: raw template text, an escaped
identifier, or an escaped literal. -/
inductive QueryPart where
  | raw : String → QueryPart
  | ident : String → QueryPart
  | lit : SqlValue → QueryPart
deriving DecidableEq

/-- Append a pending raw-text chunk (if nonempty) in front of `tail`;
psycopg2 skips empty literal-text chunks. -/
def emitRaw (acc : List Char) (tail : List QueryPart) : List QueryPart :=
  if acc.isEmpty then tail else QueryPart.raw (String.mk acc.reverse) :: tail

/-- Scan of a format template, mirroring how `SQL.format` walks
`Formatter.parse` output.  The flag says whether we are inside a
placeholder; `acc` accumulates the current raw chunk and `nameAcc` the
current placeholder name.  Returns `none` on a malformed template or an
unknown placeholder name (Python raises then). -/
def formatGo (params : List (String × QueryPart)) :
    List Char → Bool → List Char → List Char → Option (List QueryPart)
  | [], false, acc, _ => some (emitRaw acc [])
  | [], true, _, _ => none
  | c :: rest, false, acc, nameAcc =>
    if c = '\x7b' then formatGo params rest true acc []
    else formatGo params rest false (c :: acc) nameAcc
  | c :: rest, true, acc, nameAcc =>
    if c = '\x7d' then
      match params.lookup (String.mk nameAcc.reverse) with
      | none => none
      | some p =>
        match formatGo params rest false [] [] with
        | none => none
        | some tail => some (emitRaw acc (p :: tail))
    else formatGo params rest true acc (c :: nameAcc)

/-- Embedding of `params_in_query_template` from `queries_as_functions.py`:
`SQL(query_template).format(**params)`. -/
def params_in_query_template (query_template : String)
    (params : List (String × QueryPart)) : Option (List QueryPart) :=
  formatGo params query_template.data false [] []

/-- Embedding of `tables_in_schema_query` from `queries_as_functions.py`.  Note the source
binds `schema` with `sql.Literal`. -/
def tables_in_schema_query (schema : String) : Option (List QueryPart) :=
  params_in_query_template
    "\n        SELECT table_name,\x27TABLE\x27 as table_or_view\n        FROM information_schema.tables\n        WHERE table_schema = {schema} AND table_type=\x27BASE TABLE\x27\n        UNION\n        SELECT table_name,\x27VIEW\x27 as table_or_view\n        FROM information_schema.views\n        WHERE table_schema = {schema}\n        "
    [("schema", QueryPart.lit (SqlValue.str schema))]

/-- Embedding of `columns_dtypes_of_table_query` from `queries_as_functions.py`; both
parameters are bound with `sql.Literal`. -/
def columns_dtypes_of_table_query (schema table : String) :
    Option (List QueryPart) :=
  params_in_query_template
    "\n        SELECT c.column_name, c.udt_name as dtype\n        FROM information_schema.columns c\n        WHERE c.table_schema = {schema} AND c.table_name = {table}\n    "
    [("schema", QueryPart.lit (SqlValue.str schema)),
     ("table", QueryPart.lit (SqlValue.str table))]

/-- Embedding of `row_count_query` from `queries_as_functions.py`; both parameters are
bound with `sql.Identifier`. -/
def row_count_query (schema table : String) : Option (List QueryPart) :=
  params_in_query_template
    "\n    SELECT count(*)\n    FROM {schema}.{table}\n    "
    [("schema", QueryPart.ident schema),
     ("table", QueryPart.ident table)]

/-- Python truthiness of the `clause` argument (`if clause:`): a non-`None`,
non-empty string. -/
def clauseTruthy : Option String → Bool
  | none => false
  | some s => s != ""

/-- The `query_template` string of `generic_sql_query` after the
clause/random branches, before the limit branch. -/
def generic_core_template (clause : Option String) (random : Bool) : String :=
  let base := "\n        SELECT *\n        FROM {schema}.{table}\n        "
  if clauseTruthy clause then
    let t := base ++ "\n" ++ clause.getD ""
    if random then t ++ " AND RANDOM() < 0.1" else t
  else
    if random then base ++ "\nWHERE RANDOM() < 0.1" else base

/-- The final `query_template` string of `generic_sql_query`; `limit` is an
`int` defaulting to `False` (that is, `0`), appended only when truthy. -/
def generic_sql_query_template (clause : Option String) (limit : Int)
    (random : Bool) : String :=
  if limit ≠ 0 then generic_core_template clause random ++ "\nLIMIT {limit}"
  else generic_core_template clause random

/-- The `params` dict of `generic_sql_query`: schema and table as escaped
identifiers, plus the limit as an escaped literal when truthy. -/
def generic_sql_query_params (schema table : String) (limit : Int) :
    List (String × QueryPart) :=
  if limit ≠ 0 then
    [("schema", QueryPart.ident schema), ("table", QueryPart.ident table),
     ("limit", QueryPart.lit (SqlValue.int limit))]
  else
    [("schema", QueryPart.ident schema), ("table", QueryPart.ident table)]

/-- Embedding of `generic_sql_query` from `queries_as_functions.py`. -/
def generic_sql_query (schema table : String) (clause : Option String)
    (limit : Int) (random : Bool) : Option (List QueryPart) :=
  params_in_query_template (generic_sql_query_template clause limit random)
    (generic_sql_query_params schema table limit)

/-- Fields of the `describe_db_clusters` response fields read by
`get_cluster_connection_details` (connection_utils.py, RDS flavor). -/
structure RdsClusterInfo where
  endpoint : String
  readerEndpoint : String
  masterUsername : String
  databaseName : String
  port : Nat
  engine : String
deriving DecidableEq

/-- Fields of the `describe_clusters` response fields read by
`get_cluster_connection_details` (Redshift flavor). -/
structure RedshiftClusterInfo where
  address : String
  masterUsername : String
  dbName : String
  port : Nat
deriving DecidableEq

/-- Outcome of the Redshift `describe_clusters` call: success, a
`ClientError` with code `DBInstanceNotFound` (logged and swallowed), or a
`ClientError` with any other code (logged and re-raised). -/
inductive RedshiftApiResult where
  | ok : RedshiftClusterInfo → RedshiftApiResult
  | errNotFound : RedshiftApiResult
  | errOther : RedshiftApiResult
deriving DecidableEq

/-- The responses the AWS boundary gives for one cluster identifier and one
secret name: the RDS describe (`none` models any raised exception, caught by
the bare `except:`), the Redshift describe, and the Secrets Manager value. -/
structure CloudEnv where
  rds : Option RdsClusterInfo
  redshift : RedshiftApiResult
  secret : String

/-- One boundary call made by `get_cluster_connection_details`, in order. -/
inductive ApiCall where
  | rdsDescribe
  | redshiftDescribe
  | secretsGet
deriving DecidableEq

/-- Embedding of `AwsDbConnectionDetails` from connection_utils.py. -/
structure AwsDbConnectionDetails where
  host : String
  password : String
  db : String
  user : String
  cluster_type : String
  port : Nat
deriving DecidableEq

/-- Errors that can escape `get_cluster_connection_details`: the re-raised
`ClientError` from the Redshift branch, or the `UnboundLocalError` from the
construction at line 355 — `host_address` and `type` are locals of the
function (assigned at lines 319/321/337 and 328/341), so referencing one on
a path that never assigned it raises. -/
inductive CloudError where
  | clientError
  | unboundLocalError
deriving DecidableEq

/-- The Redshift branch of `get_cluster_connection_details` (the inner
`try/except ClientError`), entered from the bare `except:`.  When the
Redshift describe reports not-found, the error is logged and swallowed, the
password is still fetched (line 354, hence `secretsGet` in the trace), and
then building `AwsDbConnectionDetails` at line 355 raises
`UnboundLocalError`: either on `host_address` (RDS describe never ran) or on
`type` (RDS describe succeeded with a non-postgresql engine, so the raise at
line 330 skipped the assignment at 328) — both are locals assigned elsewhere
in the function, so neither falls back to a global name. -/
def redshift_fallback (env : CloudEnv) :
    Except CloudError AwsDbConnectionDetails × List ApiCall :=
  match env.redshift with
  | .ok rs =>
    (.ok ⟨rs.address, env.secret, rs.dbName, rs.masterUsername,
          "redshift", rs.port⟩,
     [.rdsDescribe, .redshiftDescribe, .secretsGet])
  | .errNotFound =>
    (.error .unboundLocalError,
     [.rdsDescribe, .redshiftDescribe, .secretsGet])
  | .errOther => (.error .clientError, [.rdsDescribe, .redshiftDescribe])

/-- Embedding of `get_cluster_connection_details` from connection_utils.py, returning the
result together with the trace of boundary calls.  The `raise TypeError` for
an engine string without the `"postgresql"` marker sits inside the same `try`
whose bare `except:` starts the Redshift branch, so it is swallowed and the
function falls through to the Redshift describe. -/
def get_cluster_connection_details (env : CloudEnv) (read_only : Bool) :
    Except CloudError AwsDbConnectionDetails × List ApiCall :=
  match env.rds with
  | some info =>
    let host_address := if read_only then info.readerEndpoint else info.endpoint
    if isSubstring "postgresql" info.engine then
      (.ok ⟨host_address, env.secret, info.databaseName, info.masterUsername,
            "postgresql", info.port⟩,
       [.rdsDescribe, .secretsGet])
    else
      redshift_fallback env
  | none => redshift_fallback env

/-- Python `str.lower()` (character-wise, as the source applies it to
ASCII usernames and nicknames). -/
def pyLower (s : String) : String := String.mk (s.data.map Char.toLower)

/-- Python `str.upper()` (character-wise, as applied to ASCII nicknames). -/
def pyUpper (s : String) : String := String.mk (s.data.map Char.toUpper)

/-- Python `int(s)` as applied to the vault's port string (modelled for
plain digit strings; Python raises `ValueError` otherwise, here `none`). -/
def pyToInt (s : String) : Option Int :=
  if s.data ≠ [] && s.data.all Char.isDigit then
    some (Int.ofNat (s.data.foldl (fun n c => 10 * n + (c.toNat - 48)) 0))
  else none

/-- Embedding of `AwsClusterSecretsMap` from aws_db_details.py (the attribute name
`cluster_identifer` reproduces the source spelling). -/
structure AwsClusterSecretsMap where
  cluster_identifer : String
  password_secret_name : String
deriving DecidableEq

/-- Embedding of `CONFIGURED_CLUSTER_LIST` from aws_db_details.py. -/
def CONFIGURED_CLUSTER_LIST : List (String × AwsClusterSecretsMap) :=
  [("MSP_STAGING", ⟨"msp-staging-cluster", "msp/staging-db-password"⟩),
   ("MSP_FINAL", ⟨"msp-final-cluster", "msp/final-db-password"⟩),
   ("MEDICARE_EVENTS", ⟨"medicare-events-cluster", "medicare-events/redshift-password"⟩)]

/-- The fields of `AwsDatabaseConnectionManager` after `__post_init__`. -/
structure AwsDatabaseConnectionManager where
  name : String
  driver : Option String
  host : String
  password : String
  port : Nat
  database : String
  user : String
  dialect : String
  engine_str : String
deriving DecidableEq

/-- Embedding of `AwsDatabaseConnectionManager.__post_init__` from connection_utils.py:
validates the nickname case-insensitively against the configured mapping,
resolves connection details, and builds the DSN.  Every exception inside the
`try` (including the `UnboundLocalError`/`ClientError` from resolution) is converted
to a bare `ValueError` by the `except:` clause; the pre-`try` nickname check
also raises `ValueError`.  `env` is the AWS boundary's behavior for the
mapped cluster identifier and secret name. -/
def aws_manager_init (name : String) (driver : Option String)
    (env : CloudEnv) : Except Unit AwsDatabaseConnectionManager :=
  let connection_options_lower :=
    CONFIGURED_CLUSTER_LIST.map (fun kv => pyLower kv.fst)
  let connection_name := pyLower name
  if !(connection_options_lower.contains connection_name) then
    .error ()
  else
    match CONFIGURED_CLUSTER_LIST.lookup (pyUpper name) with
    | none => .error ()
    | some _ =>
      match (get_cluster_connection_details env false).fst with
      | .error _ => .error ()
      | .ok d =>
        let engine_str :=
          match driver with
          | some drv =>
            d.cluster_type ++ "+" ++ drv ++ "://" ++ d.user ++ ":"
              ++ d.password ++ "@" ++ d.host ++ ":" ++ toString d.port ++ "/"
              ++ d.db
          | none =>
            d.cluster_type ++ "://" ++ d.user ++ ":" ++ d.password
              ++ "@" ++ d.host ++ ":" ++ toString d.port ++ "/" ++ d.db
        .ok ⟨name, driver, d.host, d.password, d.port, d.db, d.user,
             d.cluster_type, engine_str⟩

/-- The six credential fields `LastpassManager.__post_init__` fetches from
the vault CLI (all CLI outputs are strings, including the port). -/
structure LpassCreds where
  db_type : String
  database : String
  user : String
  password : String
  host : String
  port : String
deriving DecidableEq

/-- The `engine_str` DSN built in `LastpassManager.__post_init__`:
`dialect[+driver]://user:password@host:port/database`, with the username
exactly as fetched. -/
def lpass_engine_str (creds : LpassCreds) (dialect : String)
    (driver : Option String) : String :=
  match driver with
  | some drv =>
    dialect ++ "+" ++ drv ++ "://" ++ creds.user ++ ":" ++ creds.password
      ++ "@" ++ creds.host ++ ":" ++ creds.port ++ "/" ++ creds.database
  | none =>
    dialect ++ "://" ++ creds.user ++ ":" ++ creds.password ++ "@"
      ++ creds.host ++ ":" ++ creds.port ++ "/" ++ creds.database

/-- The keyword arguments `LastpassManager.create_psycopg2_connection` hands
to `psycopg2.connect`. -/
structure Psycopg2ConnectArgs where
  host : String
  database : String
  port : Int
  user : String
  password : String
deriving DecidableEq

/-- Embedding of `LastpassManager.create_psycopg2_connection` from connection_utils.py:
`int(self.port)` (None on a non-numeric port, where Python raises) and
`self.user.lower()`. -/
def create_psycopg2_connection (creds : LpassCreds) :
    Option Psycopg2ConnectArgs :=
  match pyToInt creds.port with
  | none => none
  | some p => some ⟨creds.host, creds.database, p, pyLower creds.user,
                    creds.password⟩

/-- Errors escaping `find_table_to_query` (database_utils.py): the
`ValueError` for an empty schema listing, and the `NameError` raised in the
no-match branch because `math.isnan` is referenced but `math` is never
imported in either copy of the module. -/
inductive DbError where
  | valueErrorSchemaNotFound
  | nameErrorMathNotImported
deriving DecidableEq

/-- The filter `df["table_name"].str.contains("^" + base + "_" + "\x5cd\x7b8\x7d", regex=True)`
applied by `find_table_to_query`: a `re.search` anchored only at the start,
so it accepts `base`, an underscore, eight digits, and then anything
(modelled for base names without regex metacharacters). -/
def matchesDatedPattern (base tname : String) : Bool :=
  (base ++ "_").data.isPrefixOf tname.data
    && ((tname.data.drop (base.data.length + 1)).take 8).length == 8
    && ((tname.data.drop (base.data.length + 1)).take 8).all Char.isDigit

/-- Lexicographic code-point comparison of character lists, the order Python
uses for `str` comparison (and hence the order behind pandas `.max()` on a
string column). -/
def charListLt : List Char → List Char → Bool
  | [], [] => false
  | [], _ :: _ => true
  | _ :: _, [] => false
  | a :: as, b :: bs =>
    if a.toNat < b.toNat then true
    else if b.toNat < a.toNat then false
    else charListLt as bs

/-- Python `a < b` on strings: lexicographic by code point. -/
def pyStrLt (a b : String) : Bool := charListLt a.data b.data

/-- Lexicographically maximal string of a list, mirroring pandas `.max()`
over the filtered `table_name` column (`none` on an empty selection, where
pandas yields NaN). -/
def listMaxStr : List String → Option String
  | [] => none
  | t :: ts =>
    match listMaxStr ts with
    | none => some t
    | some m => if pyStrLt m t then some t else some m

/-- Embedding of `find_table_to_query` from database_utils.py, with the schema's fetched
`table_name` column as `listing`.  An empty listing raises `ValueError`; an
exact match returns immediately; otherwise the lexicographic maximum of the
pattern matches is returned, and if there is none the guard
`type(table_to_query) != str and math.isnan(table_to_query)` raises
`NameError` (no `import math`) instead of the intended `ValueError`. -/
def find_table_to_query (listing : List String) (base_table_name : String) :
    Except DbError String :=
  if listing.isEmpty then .error .valueErrorSchemaNotFound
  else if listing.contains base_table_name then .ok base_table_name
  else
    match listMaxStr (listing.filter (fun t => matchesDatedPattern base_table_name t)) with
    | some m => .ok m
    | none => .error .nameErrorMathNotImported

/-- Modelled from the spec: the claim's notion of a date-suffixed variant —
the base name, an underscore, and exactly eight digits with nothing after
them ("the base name followed by an underscore and exactly 8 digits"). -/
def claimExact8DigitVariant (base tname : String) : Bool :=
  (base ++ "_").data.isPrefixOf tname.data
    && (tname.data.drop (base.data.length + 1)).length == 8
    && (tname.data.drop (base.data.length + 1)).all Char.isDigit

/-- Embedding of `ensure_file_slash` from file_utils.py:
`if directory != "" and directory[-1] != "/": directory += "/"`. -/
def ensure_file_slash (directory : String) : String :=
  if directory ≠ "" ∧ directory.data.getLast? ≠ some '/' then directory ++ "/"
  else directory

theorem charListLt_irrefl : ∀ a : List Char, charListLt a a = false := by
  intro a
  induction a with
  | nil => rfl
  | cons c cs ih => simp [charListLt, ih]

theorem charListLt_trans :
    ∀ {a b c : List Char}, charListLt a b = true → charListLt b c = true →
      charListLt a c = true := by
  intro a
  induction a with
  | nil =>
    intro b c hab hbc
    cases b with
    | nil => cases hab
    | cons y ys =>
      cases c with
      | nil => cases hbc
      | cons z zs => rfl
  | cons x xs ih =>
    intro b c hab hbc
    cases b with
    | nil => cases hab
    | cons y ys =>
      cases c with
      | nil => cases hbc
      | cons z zs =>
        simp only [charListLt] at hab hbc ⊢
        by_cases hxy : x.toNat < y.toNat
        · by_cases hyz : y.toNat < z.toNat
          · have hxz : x.toNat < z.toNat := Nat.lt_trans hxy hyz
            rw [if_pos hxz]
          · rw [if_neg hyz] at hbc
            by_cases hzy : z.toNat < y.toNat
            · rw [if_pos hzy] at hbc; cases hbc
            · have hxz : x.toNat < z.toNat := by omega
              rw [if_pos hxz]
        · rw [if_neg hxy] at hab
          by_cases hyx : y.toNat < x.toNat
          · rw [if_pos hyx] at hab; cases hab
          · rw [if_neg hyx] at hab
            by_cases hyz : y.toNat < z.toNat
            · have hxz : x.toNat < z.toNat := by omega
              rw [if_pos hxz]
            · rw [if_neg hyz] at hbc
              by_cases hzy : z.toNat < y.toNat
              · rw [if_pos hzy] at hbc; cases hbc
              · rw [if_neg hzy] at hbc
                have hxz : ¬ x.toNat < z.toNat := by omega
                have hzx : ¬ z.toNat < x.toNat := by omega
                rw [if_neg hxz, if_neg hzx]
                exact ih hab hbc

theorem pyStrLt_irrefl (a : String) : pyStrLt a a = false :=
  charListLt_irrefl a.data

theorem pyStrLt_trans {a b c : String} (hab : pyStrLt a b = true)
    (hbc : pyStrLt b c = true) : pyStrLt a c = true :=
  charListLt_trans hab hbc

theorem listMaxStr_eq_none {l : List String} : listMaxStr l = none ↔ l = [] := by
  cases l with
  | nil => simp [listMaxStr]
  | cons t ts =>
    simp only [listMaxStr]
    cases listMaxStr ts with
    | none => simp
    | some m =>
      by_cases h : pyStrLt m t = true <;> simp [h]

theorem listMaxStr_mem {l : List String} {m : String}
    (h : listMaxStr l = some m) : m ∈ l := by
  induction l with
  | nil => cases h
  | cons t ts ih =>
    cases hts : listMaxStr ts with
    | none =>
      simp only [listMaxStr, hts] at h
      cases h
      exact List.mem_cons_self _ _
    | some m' =>
      simp only [listMaxStr, hts] at h
      by_cases hlt : pyStrLt m' t = true
      · rw [if_pos hlt] at h
        cases h
        exact List.mem_cons_self _ _
      · rw [if_neg hlt] at h
        cases h
        exact List.mem_cons_of_mem _ (ih hts)

theorem listMaxStr_ge {l : List String} {m : String}
    (h : listMaxStr l = some m) : ∀ x ∈ l, pyStrLt m x = false := by
  induction l generalizing m with
  | nil => intro x hx; cases hx
  | cons t ts ih =>
    intro x hx
    cases hts : listMaxStr ts with
    | none =>
      simp only [listMaxStr, hts] at h
      cases h
      rcases List.mem_cons.mp hx with hx | hx
      · rw [hx]; exact pyStrLt_irrefl t
      · exact absurd (listMaxStr_eq_none.mp hts ▸ hx) (List.not_mem_nil x)
    | some m' =>
      simp only [listMaxStr, hts] at h
      by_cases hlt : pyStrLt m' t = true
      · rw [if_pos hlt] at h
        cases h
        rcases List.mem_cons.mp hx with hx | hx
        · rw [hx]; exact pyStrLt_irrefl t
        · cases hmx : pyStrLt t x with
          | false => rfl
          | true =>
            have hcontr : pyStrLt m' x = true := pyStrLt_trans hlt hmx
            rw [ih hts x hx] at hcontr
            cases hcontr
      · rw [if_neg hlt] at h
        cases h
        rcases List.mem_cons.mp hx with hx | hx
        · rw [hx]; exact Bool.eq_false_iff.mpr hlt
        · exact ih hts x hx

theorem ensure_append_getLast (d : String) :
    (d ++ "/").data.getLast? = some '/' := by
  have hd : (d ++ "/").data = d.data ++ ['/'] := rfl
  rw [hd, List.getLast?_concat]

theorem ensure_file_slash_getLast {d : String} (hd : d ≠ "") :
    (ensure_file_slash d).data.getLast? = some '/' := by
  unfold ensure_file_slash
  split_ifs with h
  · exact ensure_append_getLast d
  · push_neg at h
    exact h hd

theorem ensure_file_slash_of_slash {d : String}
    (h : d.data.getLast? = some '/') : ensure_file_slash d = d := by
  unfold ensure_file_slash
  rw [if_neg]
  rintro ⟨-, h2⟩
  exact h2 h

/-- Concrete RDS describe response with an Aurora PostgreSQL engine. -/
def auroraInfo : RdsClusterInfo :=
  ⟨"aurora-endpoint", "aurora-reader", "events_admin", "eventsdb", 5432,
   "aurora-postgresql"⟩

/-- Concrete RDS describe response with a MySQL engine. -/
def mysqlInfo : RdsClusterInfo :=
  ⟨"mysql-endpoint", "mysql-reader", "mysql_admin", "mysqldb", 3306, "mysql"⟩

/-- Concrete Redshift describe response. -/
def redshiftInfo : RedshiftClusterInfo :=
  ⟨"redshift-address", "rs_admin", "rsdb", 5439⟩

/-- Boundary behavior: the RDS describe succeeds with an Aurora PostgreSQL
engine (the Redshift flavor would report not-found). -/
def envAurora : CloudEnv := ⟨some auroraInfo, .errNotFound, "pw"⟩

/-- Boundary behavior: the RDS describe succeeds with a MySQL engine and the
identifier also resolves as a Redshift cluster. -/
def envMysqlRedshift : CloudEnv := ⟨some mysqlInfo, .ok redshiftInfo, "pw"⟩

/-- Boundary behavior: the RDS describe succeeds with a MySQL engine and the
Redshift describe reports not-found. -/
def envMysqlNotFound : CloudEnv := ⟨some mysqlInfo, .errNotFound, "pw"⟩

/-- C10: `ensure_file_slash` is idempotent, returns a string ending in a
slash for every non-empty input, leaves inputs that already end in a slash
unchanged, and returns the empty string unchanged. -/
theorem c10_ensure_file_slash :
    (∀ d : String, ensure_file_slash (ensure_file_slash d) = ensure_file_slash d)
    ∧ (∀ d : String, d ≠ "" → (ensure_file_slash d).data.getLast? = some '/')
    ∧ (∀ d : String, d.data.getLast? = some '/' → ensure_file_slash d = d)
    ∧ ensure_file_slash "" = "" := by
  refine ⟨?_, fun d hd => ensure_file_slash_getLast hd,
          fun d h => ensure_file_slash_of_slash h, rfl⟩
  intro d
  by_cases hd : d = ""
  · subst hd; rfl
  · exact ensure_file_slash_of_slash (ensure_file_slash_getLast hd)

/-- Witness for C10 at a concrete directory name. -/
theorem c10_witness : (ensure_file_slash "results").data.getLast? = some '/' :=
  c10_ensure_file_slash.2.1 "results" (by decide)

/-- C5: whenever the base table name appears verbatim in the schema listing,
`find_table_to_query` returns the base name itself, regardless of any other
entries (in particular lexicographically larger dated variants). -/
theorem c5_exact_match_wins (listing : List String) (base : String)
    (h : base ∈ listing) : find_table_to_query listing base = .ok base := by
  have h1 : listing.isEmpty = false := by
    cases listing with
    | nil => cases h
    | cons a t => rfl
  have h2 : listing.contains base = true := by
    simpa using h
  simp [find_table_to_query, h1, h2, h]

/-- Witness for C5: the exact match wins even with a lexicographically larger
dated variant in the listing. -/
theorem c5_witness :
    find_table_to_query ["events", "events_20990101"] "events" = .ok "events" :=
  c5_exact_match_wins ["events", "events_20990101"] "events" (by decide)

/-- C3: on a non-empty listing with neither an exact match nor any name
accepted by the date-suffix filter, `find_table_to_query` raises `NameError`
(the module never imports `math`, so the guard that should raise the typed
`ValueError` fails first) — not the `ValueError` the claim describes. -/
theorem c3_no_match_raises_name_error (listing : List String) (base : String)
    (h1 : listing ≠ []) (h2 : ¬ base ∈ listing)
    (h3 : listing.filter (fun t => matchesDatedPattern base t) = []) :
    find_table_to_query listing base = .error .nameErrorMathNotImported := by
  have he : listing.isEmpty = false := by
    cases listing with
    | nil => exact absurd rfl h1
    | cons a t => rfl
  have hc : listing.contains base = false := by
    simp only [← List.elem_iff] at h2
    exact Bool.eq_false_iff.mpr fun hb => h2 (by simpa using hb)
  simp [find_table_to_query, he, hc, h3, h2, listMaxStr]

/-- Witness for C3 at a concrete listing with no matching table. -/
theorem c3_witness :
    find_table_to_query ["other_table"] "events"
      = .error .nameErrorMathNotImported :=
  c3_no_match_raises_name_error ["other_table"] "events" (by decide) (by decide)
    (by decide)

/-- C4 counterexample: the filter pattern is anchored only at the start, so a
name with an 8-digit suffix followed by further characters — not a
base-plus-exactly-8-digits variant in the claim's sense — is accepted and
returned. -/
theorem c4_counterexample :
    find_table_to_query ["events_20230101_x9"] "events" = .ok "events_20230101_x9"
    ∧ claimExact8DigitVariant "events" "events_20230101_x9" = false
    ∧ "events_20230101_x9" ≠ "events" := by
  refine ⟨rfl, by decide, by decide⟩

/-- C4 amended: when the base name is absent, `find_table_to_query` considers
exactly the names whose text is the base name, an underscore, and at least
eight digits (the pattern is unanchored at the end, so trailing characters
after the digits are allowed), and returns the lexicographically maximal such
name; the {base_20230101, base_20230215, base_20221231} example still
resolves to base_20230215. -/
theorem c4_amended :
    (∀ (listing : List String) (base m : String),
        listing.contains base = false →
        find_table_to_query listing base = .ok m →
        matchesDatedPattern base m = true ∧ m ∈ listing ∧
          ∀ x ∈ listing, matchesDatedPattern base x = true → pyStrLt m x = false)
    ∧ find_table_to_query ["base_20230101", "base_20230215", "base_20221231"]
        "base" = .ok "base_20230215" := by
  constructor
  · intro listing base m hc hok
    unfold find_table_to_query at hok
    by_cases he : listing.isEmpty
    · rw [if_pos he] at hok; cases hok
    · rw [if_neg he, hc] at hok
      simp only [Bool.false_eq_true, if_false] at hok
      cases hmax : listMaxStr (listing.filter (fun t => matchesDatedPattern base t)) with
      | none => rw [hmax] at hok; cases hok
      | some m' =>
        rw [hmax] at hok
        cases hok
        have hmem := listMaxStr_mem hmax
        have hge := listMaxStr_ge hmax
        refine ⟨(List.mem_filter.mp hmem).2, (List.mem_filter.mp hmem).1, ?_⟩
        intro x hx hmx
        exact hge x (List.mem_filter.mpr ⟨hx, hmx⟩)
  · rfl

/-- Witness for C4's amended statement at a concrete one-element listing. -/
theorem c4_witness :
    matchesDatedPattern "b" "b_20230101" = true ∧ "b_20230101" ∈ ["b_20230101"]
    ∧ ∀ x ∈ ["b_20230101"], matchesDatedPattern "b" x = true
        → pyStrLt "b_20230101" x = false :=
  c4_amended.1 ["b_20230101"] "b" "b_20230101" (by decide) rfl

/-- Schema name containing a quote and a semicolon, used to exercise the
identifier/literal binding distinction. -/
def injSchema : String := "my;\x27schema"

/-- The parts `tables_in_schema_query` produces for `injSchema`. -/
def injSchemaParts : List QueryPart :=
  [QueryPart.raw "\n        SELECT table_name,\x27TABLE\x27 as table_or_view\n        FROM information_schema.tables\n        WHERE table_schema = ",
   QueryPart.lit (SqlValue.str injSchema),
   QueryPart.raw " AND table_type=\x27BASE TABLE\x27\n        UNION\n        SELECT table_name,\x27VIEW\x27 as table_or_view\n        FROM information_schema.views\n        WHERE table_schema = ",
   QueryPart.lit (SqlValue.str injSchema),
   QueryPart.raw "\n        "]

/-- C2 counterexample: `tables_in_schema_query` binds the schema name as an
escaped literal (`sql.Literal`), not as an escaped identifier, even for an
input containing quote and semicolon characters — so schema names do not
appear "only as escaped identifiers" across the four builders. -/
theorem c2_counterexample :
    tables_in_schema_query injSchema = some injSchemaParts
    ∧ QueryPart.lit (SqlValue.str injSchema) ∈ injSchemaParts
    ∧ QueryPart.ident injSchema ∉ injSchemaParts :=
  ⟨rfl, by decide, by decide⟩

/-- C2 amended: schema and table names always enter the built query through
an escaping binding, never as raw text, but the binding kind differs per
builder: `row_count_query` and `generic_sql_query` bind them as escaped
identifiers, while the two information-schema builders
(`tables_in_schema_query`, `columns_dtypes_of_table_query`) bind them as
escaped literals. -/
theorem c2_amended :
    (∀ schema : String, tables_in_schema_query schema
      = some [QueryPart.raw "\n        SELECT table_name,\x27TABLE\x27 as table_or_view\n        FROM information_schema.tables\n        WHERE table_schema = ",
              QueryPart.lit (SqlValue.str schema),
              QueryPart.raw " AND table_type=\x27BASE TABLE\x27\n        UNION\n        SELECT table_name,\x27VIEW\x27 as table_or_view\n        FROM information_schema.views\n        WHERE table_schema = ",
              QueryPart.lit (SqlValue.str schema),
              QueryPart.raw "\n        "])
    ∧ (∀ schema table : String, columns_dtypes_of_table_query schema table
      = some [QueryPart.raw "\n        SELECT c.column_name, c.udt_name as dtype\n        FROM information_schema.columns c\n        WHERE c.table_schema = ",
              QueryPart.lit (SqlValue.str schema),
              QueryPart.raw " AND c.table_name = ",
              QueryPart.lit (SqlValue.str table),
              QueryPart.raw "\n    "])
    ∧ (∀ schema table : String, row_count_query schema table
      = some [QueryPart.raw "\n    SELECT count(*)\n    FROM ",
              QueryPart.ident schema, QueryPart.raw ".",
              QueryPart.ident table, QueryPart.raw "\n    "])
    ∧ (∀ schema table : String, generic_sql_query schema table none 0 false
      = some [QueryPart.raw "\n        SELECT *\n        FROM ",
              QueryPart.ident schema, QueryPart.raw ".",
              QueryPart.ident table, QueryPart.raw "\n        "])
    ∧ (∀ (schema table : String) (limit : Int),
        (generic_sql_query_params schema table limit).lookup "schema"
            = some (QueryPart.ident schema)
        ∧ (generic_sql_query_params schema table limit).lookup "table"
            = some (QueryPart.ident table)) := by
  refine ⟨fun schema => rfl, fun schema table => rfl, fun schema table => rfl,
         fun schema table => rfl, ?_⟩
  intro schema table limit
  by_cases h : limit = 0 <;>
    simp [generic_sql_query_params, h, List.lookup]

/-- Username credentials in which the vault-stored username has an
upper-case letter. -/
def adminCreds : LpassCreds := ⟨"postgresql", "db", "Admin", "pw", "h", "5432"⟩

/-- C8 counterexample: the engine-abstraction (SQLAlchemy) connection string
embeds the username exactly as fetched — `Admin` stays `Admin` — so the
username is not lower-cased for that connection style, and lower-casing the
input changes the DSN. -/
theorem c8_counterexample :
    lpass_engine_str adminCreds "postgresql" (some "psycopg2")
      = "postgresql+psycopg2://Admin:pw@h:5432/db"
    ∧ lpass_engine_str adminCreds "postgresql" (some "psycopg2")
        ≠ lpass_engine_str { adminCreds with user := pyLower adminCreds.user }
            "postgresql" (some "psycopg2") :=
  ⟨rfl, by decide⟩

/-- C8 amended: only the direct driver-level (psycopg2) connection style
lower-cases the username before handing it to the driver; the
engine-abstraction style builds its DSN with the username unchanged. -/
theorem c8_amended :
    (∀ (creds : LpassCreds) (args : Psycopg2ConnectArgs),
        create_psycopg2_connection creds = some args →
        args.user = pyLower creds.user)
    ∧ (∀ (creds : LpassCreds) (dialect drv : String),
        lpass_engine_str creds dialect (some drv)
          = dialect ++ "+" ++ drv ++ "://" ++ creds.user ++ ":"
              ++ creds.password ++ "@" ++ creds.host ++ ":" ++ creds.port
              ++ "/" ++ creds.database) := by
  constructor
  · intro creds args h
    unfold create_psycopg2_connection at h
    cases hp : pyToInt creds.port with
    | none => rw [hp] at h; cases h
    | some p =>
      rw [hp] at h
      cases h
      rfl
  · intro creds dialect drv
    rfl

/-- Witness for C8's amended statement: `USER` becomes `user` in the
psycopg2 connection arguments. -/
theorem c8_witness :
    (⟨"h", "db", 1, "user", "pw"⟩ : Psycopg2ConnectArgs).user
      = pyLower "USER" :=
  c8_amended.1 ⟨"t", "db", "USER", "pw", "h", "1"⟩ ⟨"h", "db", 1, "user", "pw"⟩
    rfl

/-- C7: with `random=True` and a truthy clause, `generic_sql_query` joins the
fixed sampling filter to the clause with ` AND ` (and the appended fragments
introduce no second `WHERE`); with no clause, the sampling filter is
introduced by `WHERE`. -/
theorem c7_sampling_join (clause : String) (hc : clause ≠ "") (limit : Int) :
    (generic_sql_query_template (some clause) limit true
      = ("\n        SELECT *\n        FROM {schema}.{table}\n        " ++ "\n"
          ++ clause ++ " AND RANDOM() < 0.1")
        ++ (if limit ≠ 0 then "\nLIMIT {limit}" else ""))
    ∧ (generic_sql_query_template none limit true
      = ("\n        SELECT *\n        FROM {schema}.{table}\n        "
          ++ "\nWHERE RANDOM() < 0.1")
        ++ (if limit ≠ 0 then "\nLIMIT {limit}" else ""))
    ∧ isSubstring "WHERE" " AND RANDOM() < 0.1" = false
    ∧ isSubstring "WHERE"
        "\n        SELECT *\n        FROM {schema}.{table}\n        " = false := by
  have htru : clauseTruthy (some clause) = true := by
    simp [clauseTruthy, hc]
  refine ⟨?_, ?_, by decide, by decide⟩
  · unfold generic_sql_query_template generic_core_template
    rw [htru]
    by_cases h : limit = 0 <;>
      simp [h, String.append_assoc]
  · unfold generic_sql_query_template generic_core_template
    by_cases h : limit = 0 <;>
      simp [h, clauseTruthy, String.append_assoc]

/-- Witness for C7 at a concrete clause and limit. -/
theorem c7_witness :
    generic_sql_query_template (some "WHERE x > 1") 10 true
      = ("\n        SELECT *\n        FROM {schema}.{table}\n        " ++ "\n"
          ++ "WHERE x > 1" ++ " AND RANDOM() < 0.1")
        ++ (if (10 : Int) ≠ 0 then "\nLIMIT {limit}" else "") :=
  (c7_sampling_join "WHERE x > 1" (by decide) 10).1

/-- C9: the `LIMIT` fragment and its escaped-literal binding appear exactly
when the supplied limit is truthy (non-zero); with the default `0`/`False`
no `LIMIT` text and no literal binding is produced. -/
theorem c9_limit_binding (schema table : String) (clause : Option String)
    (limit : Int) (random : Bool) :
    ((generic_sql_query_params schema table limit).lookup "limit"
      = if limit = 0 then none else some (QueryPart.lit (SqlValue.int limit)))
    ∧ (generic_sql_query_template clause limit random
      = generic_core_template clause random
          ++ (if limit = 0 then "" else "\nLIMIT {limit}"))
    ∧ (generic_sql_query schema table none 0 random
      = some (if random then
          [QueryPart.raw "\n        SELECT *\n        FROM ",
           QueryPart.ident schema, QueryPart.raw ".", QueryPart.ident table,
           QueryPart.raw "\n        \nWHERE RANDOM() < 0.1"]
        else
          [QueryPart.raw "\n        SELECT *\n        FROM ",
           QueryPart.ident schema, QueryPart.raw ".", QueryPart.ident table,
           QueryPart.raw "\n        "]))
    ∧ (limit ≠ 0 → generic_sql_query schema table none limit random
      = some (if random then
          [QueryPart.raw "\n        SELECT *\n        FROM ",
           QueryPart.ident schema, QueryPart.raw ".", QueryPart.ident table,
           QueryPart.raw "\n        \nWHERE RANDOM() < 0.1\nLIMIT ",
           QueryPart.lit (SqlValue.int limit)]
        else
          [QueryPart.raw "\n        SELECT *\n        FROM ",
           QueryPart.ident schema, QueryPart.raw ".", QueryPart.ident table,
           QueryPart.raw "\n        \nLIMIT ",
           QueryPart.lit (SqlValue.int limit)]))
    ∧ isSubstring "LIMIT" (generic_core_template none random) = false := by
  refine ⟨?_, ?_, ?_, ?_, ?_⟩
  · by_cases h : limit = 0 <;>
      simp [generic_sql_query_params, h, List.lookup]
  · by_cases h : limit = 0 <;>
      simp [generic_sql_query_template, h]
  · cases random <;> rfl
  · intro h
    unfold generic_sql_query generic_sql_query_template generic_sql_query_params
    rw [if_pos h, if_pos h]
    cases random <;> rfl
  · cases random <;> decide

/-- Witness for C9: a non-zero limit yields the `LIMIT` fragment with the
limit bound as an escaped literal. -/
theorem c9_witness :
    generic_sql_query "s" "t" none 7 false
      = some (if false = true then
          [QueryPart.raw "\n        SELECT *\n        FROM ",
           QueryPart.ident "s", QueryPart.raw ".", QueryPart.ident "t",
           QueryPart.raw "\n        \nWHERE RANDOM() < 0.1\nLIMIT ",
           QueryPart.lit (SqlValue.int 7)]
        else
          [QueryPart.raw "\n        SELECT *\n        FROM ",
           QueryPart.ident "s", QueryPart.raw ".", QueryPart.ident "t",
           QueryPart.raw "\n        \nLIMIT ",
           QueryPart.lit (SqlValue.int 7)]) :=
  (c9_limit_binding "s" "t" none 7 false).2.2.2.1 (by decide)

/-- C1 counterexample: an engine string `mysql` does not cause a fatal
configuration error — the engine-type `TypeError` is swallowed by the same
bare `except:` that implements the RDS-to-Redshift fallback, so resolution
proceeds to the Redshift describe and returns Redshift details when the
identifier exists there; when the Redshift describe reports not-found,
resolution fails only later, with `UnboundLocalError` on the `type` local at
the construction line, not with the engine-type error; moreover the
hyphenated logical name `medicare-events` is not in the configured mapping
(the nickname is `MEDICARE_EVENTS`), so its resolution raises `ValueError`
regardless of the engine string. -/
theorem c1_counterexample :
    (get_cluster_connection_details envMysqlRedshift false).fst
      = .ok ⟨"redshift-address", "pw", "rsdb", "rs_admin", "redshift", 5439⟩
    ∧ (get_cluster_connection_details envMysqlNotFound false).fst
      = .error .unboundLocalError
    ∧ ApiCall.redshiftDescribe
        ∈ (get_cluster_connection_details envMysqlNotFound false).snd
    ∧ aws_manager_init "medicare-events" (some "psycopg2") envAurora
      = .error () :=
  ⟨rfl, rfl, by decide, rfl⟩

/-- C1 amended: the configured logical name is `medicare_events` (the
hyphenated `medicare-events` is rejected with `ValueError` before any API
call); for it, an RDS engine string of `aurora-postgresql` resolves to
dialect `postgresql`; an engine string of `mysql` does not fail fast — the
raised engine-type error is swallowed and resolution falls back to the
Redshift describe API, succeeding with dialect `redshift` when that describe
succeeds, and raising `UnboundLocalError` at the construction of the
connection details (surfaced by the manager as a bare `ValueError`) when it
reports not-found. -/
theorem c1_amended :
    (∀ (env : CloudEnv) (info : RdsClusterInfo), env.rds = some info →
        info.engine = "aurora-postgresql" →
        ∃ mgr, aws_manager_init "medicare_events" (some "psycopg2") env
            = .ok mgr ∧ mgr.dialect = "postgresql")
    ∧ (∀ env : CloudEnv,
        aws_manager_init "medicare-events" (some "psycopg2") env = .error ())
    ∧ (∀ (env : CloudEnv) (info : RdsClusterInfo), env.rds = some info →
        info.engine = "mysql" →
        ApiCall.redshiftDescribe ∈ (get_cluster_connection_details env false).snd
        ∧ (∀ rs, env.redshift = .ok rs →
            (get_cluster_connection_details env false).fst
              = .ok ⟨rs.address, env.secret, rs.dbName, rs.masterUsername,
                     "redshift", rs.port⟩)
        ∧ (env.redshift = .errNotFound →
            (get_cluster_connection_details env false).fst
              = .error .unboundLocalError)) := by
  refine ⟨?_, fun env => rfl, ?_⟩
  · intro env info h1 h2
    obtain ⟨rds, rsf, sec⟩ := env
    dsimp only at h1
    subst h1
    obtain ⟨ep, rep, mu, dn, pt, eng⟩ := info
    dsimp only at h2
    subst h2
    exact ⟨_, rfl, rfl⟩
  · intro env info h1 h2
    obtain ⟨rds, rsf, sec⟩ := env
    dsimp only at h1
    subst h1
    obtain ⟨ep, rep, mu, dn, pt, eng⟩ := info
    dsimp only at h2
    subst h2
    refine ⟨?_, ?_, ?_⟩
    · cases rsf with
      | ok rs =>
        show ApiCall.redshiftDescribe ∈
          [ApiCall.rdsDescribe, ApiCall.redshiftDescribe, ApiCall.secretsGet]
        decide
      | errNotFound =>
        show ApiCall.redshiftDescribe ∈
          [ApiCall.rdsDescribe, ApiCall.redshiftDescribe, ApiCall.secretsGet]
        decide
      | errOther =>
        show ApiCall.redshiftDescribe ∈
          [ApiCall.rdsDescribe, ApiCall.redshiftDescribe]
        decide
    · intro rs hrs
      dsimp only at hrs
      subst hrs
      rfl
    · intro hrs
      dsimp only at hrs
      subst hrs
      rfl

/-- Witness for C1's amended statement at the Aurora environment. -/
theorem c1_witness :
    ∃ mgr, aws_manager_init "medicare_events" (some "psycopg2") envAurora
        = .ok mgr ∧ mgr.dialect = "postgresql" :=
  c1_amended.1 envAurora auroraInfo rfl rfl

/-- C6: resolution always attempts the RDS describe first, and skips the
Redshift describe when the RDS branch completes (describe succeeds and the
engine carries the `postgresql` marker); but when the RDS describe succeeds
with engine `mysql`, the swallowed engine-type error sends control to the
Redshift describe anyway — the alternate API is called after a successful
first describe, contrary to the claim. -/
theorem c6_call_ordering :
    (∀ (env : CloudEnv) (read_only : Bool),
        ((get_cluster_connection_details env read_only).snd).head?
          = some ApiCall.rdsDescribe)
    ∧ (∀ (env : CloudEnv) (info : RdsClusterInfo), env.rds = some info →
        isSubstring "postgresql" info.engine = true →
        (get_cluster_connection_details env false).snd
          = [ApiCall.rdsDescribe, ApiCall.secretsGet])
    ∧ (get_cluster_connection_details envMysqlRedshift false).snd
        = [ApiCall.rdsDescribe, ApiCall.redshiftDescribe,
           ApiCall.secretsGet] := by
  refine ⟨?_, ?_, rfl⟩
  · intro env ro
    obtain ⟨rds, rsf, sec⟩ := env
    cases rds with
    | none => cases rsf <;> rfl
    | some info =>
      by_cases h : isSubstring "postgresql" info.engine = true
      · simp [get_cluster_connection_details, h]
      · have h' : isSubstring "postgresql" info.engine = false :=
          Bool.eq_false_iff.mpr h
        simp only [get_cluster_connection_details, h', Bool.false_eq_true,
          if_false]
        cases rsf <;> rfl
  · intro env info h1 h2
    obtain ⟨rds, rsf, sec⟩ := env
    dsimp only at h1
    subst h1
    simp [get_cluster_connection_details, h2]

/-- Witness for C6 at the Aurora environment: the Redshift API is not in the
call trace. -/
theorem c6_witness :
    (get_cluster_connection_details envAurora false).snd
      = [ApiCall.rdsDescribe, ApiCall.secretsGet] :=
  c6_call_ordering.2.1 envAurora auroraInfo rfl (by decide)
